import Mathlib

/-!
Verification development for the log-bundle error-handling library.

Shallow embedding of the error-data model (`src/error/error-data.ts`),
the global error configuration (`src/error/error-config.ts`), the record
utilities (`src/error/error-utils.ts`), the category factories
(`src/error/factories.ts`), the bound-context factory
(`src/error/error-factory.ts`) and the request error pipeline
(`src/integrations/process-error-handler.ts`, `errorPipe`).

Conventions of the embedding:
- JavaScript objects used as open string-keyed maps (`Record<string, unknown>`)
  are association lists `Obj`; object spread is list append and key lookup
  (`jget`) lets the latest binding win, matching spread semantics.
- TypeScript optional fields (`x?: T`) are `Option T`; a field that is
  absent and a field explicitly set to `undefined` are identified (every
  read in the embedded code goes through `?.`, `??` or a truthiness test,
  under which the two are indistinguishable).
- JavaScript string truthiness (`if (s)` for `s : string | undefined`) is
  `strTruthy`; numeric `x || d` is `jsOrNat`.
- The string-valued `ErrorType` enum is extensible at runtime through
  `registerErrorType`, so categories are plain `String`s and the eleven
  canonical members are string literals.
-/

namespace LogBundle

/-- Primitive JavaScript values stored in context/meta maps. -/
inductive JVal where
  | str : String → JVal
  | num : Int → JVal
  | bool : Bool → JVal
  | null : JVal
deriving DecidableEq

/-- A JavaScript object viewed as an open string-keyed map (insertion list). -/
abbrev Obj := List (String × JVal)

/-- Key lookup in an `Obj`: the latest binding for a key wins, so that list
append models object spread (`{...a, ...b}` is `a ++ b`). -/
def jget : Obj → String → Option JVal
  | [], _ => none
  | (k, v) :: rest, key =>
    match jget rest key with
    | some w => some w
    | none => if k = key then some v else none

/-- JavaScript truthiness of a `string | undefined` value:
`undefined` and the empty string are falsy. -/
def strTruthy : Option String → Bool
  | some s => s ≠ ""
  | none => false

/-- JavaScript `x || d` for `x : number | undefined` (`undefined` and `0` fall
through to the default). -/
def jsOrNat (x : Option Nat) (d : Nat) : Nat :=
  match x with
  | some v => if v = 0 then d else v
  | none => d

/-- Lookup in a JS `Map<string, number>` modelled as an association list where
`mapSet` prepends, so the first match is the most recent `set`. -/
def mapGet : List (String × Nat) → String → Option Nat
  | [], _ => none
  | (k, v) :: rest, key => if k = key then some v else mapGet rest key

/-- `Map.set`: the new binding shadows any earlier one under `mapGet`. -/
def mapSet (m : List (String × Nat)) (k : String) (v : Nat) : List (String × Nat) :=
  (k, v) :: m

/-- `DEFAULT_HTTP_STATUS_MAP` from `error-types.ts`: built-in default status
for each of the eleven canonical error types; absent for other strings. -/
def DEFAULT_HTTP_STATUS_MAP (t : String) : Option Nat :=
  if t = "internal" then some 500
  else if t = "not-found" then some 404
  else if t = "validation" then some 400
  else if t = "database" then some 500
  else if t = "busy" then some 503
  else if t = "forbidden" then some 403
  else if t = "bad-input" then some 400
  else if t = "unauthorized" then some 401
  else if t = "conflict" then some 409
  else if t = "external" then some 502
  else if t = "timeout" then some 504
  else none

/-- `StatusCodeRule` from `error-config.ts`: an exact code, an inclusive
`[min, max]` range, or a range with an optional exclusion list. -/
inductive StatusCodeRule where
  | exact : Nat → StatusCodeRule
  | range : Nat → Nat → StatusCodeRule
  | rangeExclude : Nat → Nat → Option (List Nat) → StatusCodeRule
deriving DecidableEq

/-- The per-rule test inside `ErrorConfig.shouldSendToSentry` (the body of the
`some` callback). `exclude?.includes(s) ?? false` is the `getD false`. -/
def StatusCodeRule.matches : StatusCodeRule → Nat → Bool
  | .exact n, s => s = n
  | .range min max, s => min ≤ s && s ≤ max
  | .rangeExclude min max exclude, s =>
    (min ≤ s && s ≤ max) && !((exclude.map (fun l => l.contains s)).getD false)

/-- The mutable state of the `ErrorConfig` singleton. -/
structure ErrorConfigState where
  sentryStatusRules : List StatusCodeRule
  customStatusMap : List (String × Nat)
  customErrorTypes : List (String × Nat)
deriving DecidableEq

namespace ErrorConfig

/-- Initial state of the singleton: report all 5xx, no custom mappings. -/
def initial : ErrorConfigState :=
  { sentryStatusRules := [StatusCodeRule.range 500 599]
    customStatusMap := []
    customErrorTypes := [] }

/-- `ErrorConfig.setSentryStatusRules`. -/
def setSentryStatusRules (st : ErrorConfigState) (rules : List StatusCodeRule) :
    ErrorConfigState :=
  { st with sentryStatusRules := rules }

/-- `ErrorConfig.shouldSendToSentry`: true iff some rule matches. -/
def shouldSendToSentry (st : ErrorConfigState) (statusCode : Nat) : Bool :=
  st.sentryStatusRules.any (fun rule => rule.matches statusCode)

/-- `ErrorConfig.registerErrorType`. -/
def registerErrorType (st : ErrorConfigState) (errorType : String) (httpStatus : Nat) :
    ErrorConfigState :=
  { st with customErrorTypes := mapSet st.customErrorTypes errorType httpStatus }

/-- `ErrorConfig.setCustomStatusMap`: sets every pair of the mapping. -/
def setCustomStatusMap (st : ErrorConfigState) (mapping : List (String × Nat)) :
    ErrorConfigState :=
  { st with customStatusMap :=
      mapping.foldl (fun m kv => mapSet m kv.1 kv.2) st.customStatusMap }

/-- `ErrorConfig.getHttpStatus`: custom status map, then registered custom
types, then the supplied default. -/
def getHttpStatus (st : ErrorConfigState) (errorType : String) (defaultStatus : Nat) : Nat :=
  match mapGet st.customStatusMap errorType with
  | some customStatus => customStatus
  | none =>
    match mapGet st.customErrorTypes errorType with
    | some customTypeStatus => customTypeStatus
    | none => defaultStatus

/-- `ErrorConfig.reset`: clears both maps and restores the default rule list. -/
def reset (_st : ErrorConfigState) : ErrorConfigState :=
  { customStatusMap := []
    customErrorTypes := []
    sentryStatusRules := [StatusCodeRule.range 500 599] }

end ErrorConfig

/-- A JavaScript `Error` as the embedded model keeps it (`cause` objects). -/
structure JsError where
  name : String
  message : String
  stack : Option String := none
deriving DecidableEq

/-- `ValidationError` from `error-types.ts`, extended with the `meta` field
produced by `parseZodErrors`. -/
structure ValidationError where
  field : String
  message : String
  meta : Option Obj := none
deriving DecidableEq

/-- `PublicErrorData`: user-facing fields of a record. The source field
`instance` is embedded as `instanceRef` (`instance` is reserved in Lean). -/
structure PublicErrorData where
  type : Option String := none
  title : Option String := none
  detail : Option String := none
  instanceRef : Option String := none
  meta : Option Obj := none
  validationErrors : Option (List ValidationError) := none
deriving DecidableEq

/-- `InternalErrorData`: log/Sentry-only fields of a record. -/
structure InternalErrorData where
  cause : Option JsError := none
  context : Option Obj := none
  tags : Option (List (String × String)) := none
deriving DecidableEq

/-- `ErrorData`: the error record. -/
structure ErrorData where
  type : String
  message : String
  public : Option PublicErrorData := none
  internal : Option InternalErrorData := none
  httpStatus : Option Nat := none
  skipSentry : Option Bool := none
deriving DecidableEq

/-- `CreateErrorDataOptions`. -/
structure CreateErrorDataOptions where
  public : Option PublicErrorData := none
  internal : Option InternalErrorData := none
  httpStatus : Option Nat := none
  skipSentry : Option Bool := none
deriving DecidableEq

/-- `createErrorData` from `error-data.ts`: builds the record from its
arguments, with no checks of any kind. -/
def createErrorData (type : String) (message : String)
    (options : Option CreateErrorDataOptions) : ErrorData :=
  { type := type
    message := message
    public := options.bind (fun o => o.public)
    internal := options.bind (fun o => o.internal)
    httpStatus := options.bind (fun o => o.httpStatus)
    skipSentry := options.bind (fun o => o.skipSentry) }

/-- `getHttpStatus` from `error-data.ts`: explicit record override first, then
the configuration resolution seeded with the built-in default (or 500). -/
def getHttpStatus (cfg : ErrorConfigState) (error : ErrorData) : Nat :=
  match error.httpStatus with
  | some s => s
  | none =>
    ErrorConfig.getHttpStatus cfg error.type
      (jsOrNat (DEFAULT_HTTP_STATUS_MAP error.type) 500)

/-- `ErrorResponse` from `error-types.ts` (RFC 9457 wire shape). The source
field `instance` is embedded as `instanceRef`. -/
structure ErrorResponse where
  type : String
  title : String
  status : Nat
  detail : Option String := none
  instanceRef : Option String := none
  errors : Option (List ValidationError) := none
  meta : Option Obj := none
deriving DecidableEq

/-- `toErrorResponse` from `error-data.ts`: the public projection. -/
def toErrorResponse (cfg : ErrorConfigState) (error : ErrorData)
    (baseUrl : Option String) : ErrorResponse :=
  let statusCode := getHttpStatus cfg error
  let pubType := error.public.bind (fun p => p.type)
  let typeUri :=
    if strTruthy pubType then
      if strTruthy baseUrl then baseUrl.getD "" ++ "/" ++ pubType.getD ""
      else "urn:problem:" ++ pubType.getD ""
    else "urn:problem:" ++ error.type
  let validationErrors := error.public.bind (fun p => p.validationErrors)
  let errorsField : Option (List ValidationError) :=
    match validationErrors with
    | some l => if l.length > 0 then some l else none
    | none => none
  let publicMeta := error.public.bind (fun p => p.meta)
  let metaField : Option Obj :=
    match publicMeta with
    | some m => if m.length > 0 then some m else none
    | none => none
  { type := typeUri
    title := (error.public.bind (fun p => p.title)).getD "Error"
    status := statusCode
    detail := error.public.bind (fun p => p.detail)
    instanceRef := error.public.bind (fun p => p.instanceRef)
    errors := errorsField
    meta := metaField }

/-- `toHttpResponse` from `error-data.ts`: status plus body; under the
debug-detail opt-in, a 5xx body without a truthy `detail` receives the
internal message. -/
def toHttpResponse (cfg : ErrorConfigState) (error : ErrorData)
    (includeErrorDetails : Bool) : Nat × ErrorResponse :=
  let statusCode := getHttpStatus cfg error
  let body := toErrorResponse cfg error none
  let body :=
    if includeErrorDetails && decide (500 ≤ statusCode) && !(strTruthy body.detail) then
      { body with detail := some error.message }
    else body
  (statusCode, body)

/-- `shouldSendToSentry` from `error-data.ts`. -/
def shouldSendToSentry (cfg : ErrorConfigState) (error : ErrorData) : Bool :=
  if error.skipSentry.getD false then false
  else ErrorConfig.shouldSendToSentry cfg (getHttpStatus cfg error)

/-- `withContext` from `error-utils.ts`: merge extra keys into the internal
context, the extra keys winning; all other fields are spread through. -/
def withContext (error : ErrorData) (additionalContext : Obj) : ErrorData :=
  { error with
    internal := some
      { cause := error.internal.bind (fun i => i.cause)
        context := some (((error.internal.bind (fun i => i.context)).getD []) ++ additionalContext)
        tags := error.internal.bind (fun i => i.tags) } }

/-- `withHttpStatus` from `error-utils.ts`. -/
def withHttpStatus (error : ErrorData) (statusCode : Nat) : ErrorData :=
  { error with httpStatus := some statusCode }

/-- `withoutSentry` from `error-utils.ts`. -/
def withoutSentry (error : ErrorData) : ErrorData :=
  { error with skipSentry := some true }

namespace factories

/-- `notFound` from `factories.ts`: category defaults overlaid by the caller
options (caller wins), auto-populated internal context first so that the
spread of the caller context wins on collision; `resource_id` is added only
when `id` is defined. -/
def notFound (resource : String) (id : Option JVal)
    (options : Option CreateErrorDataOptions) : ErrorData :=
  let op := options.bind (fun o => o.public)
  let oi := options.bind (fun o => o.internal)
  let idPart : Obj :=
    match id with
    | some v => [("resource_id", v)]
    | none => []
  createErrorData "not-found" (resource ++ " not found") (some
    { public := some
        { type := op.bind (fun p => p.type)
          title := (op.bind (fun p => p.title)).orElse (fun _ => some "Resource Not Found")
          detail := (op.bind (fun p => p.detail)).orElse
            (fun _ => some ("The requested " ++ resource ++ " could not be found"))
          instanceRef := op.bind (fun p => p.instanceRef)
          meta := op.bind (fun p => p.meta)
          validationErrors := op.bind (fun p => p.validationErrors) }
      internal := some
        { context := some
            ([("resource", JVal.str resource)] ++ idPart ++ (oi.bind (fun i => i.context)).getD [])
          cause := oi.bind (fun i => i.cause)
          tags := oi.bind (fun i => i.tags) }
      httpStatus := options.bind (fun o => o.httpStatus)
      skipSentry := options.bind (fun o => o.skipSentry) })

end factories

namespace ErrorFactory

/-- `ErrorFactory.mergeContext`: the bound context with the per-call overlay
winning on key collision (`Object.assign({}, bound, optionsContext)`). -/
def mergeContext (bound : Obj) (optionsContext : Option Obj) : Obj :=
  match optionsContext with
  | none => bound
  | some oc => bound ++ oc

/-- `ErrorFactory.notFound`: rebuilds the per-call internal data with the
merged context and delegates to the plain factory. -/
def notFound (bound : Obj) (resource : String) (id : Option JVal)
    (options : Option CreateErrorDataOptions) : ErrorData :=
  let mergedInternal : InternalErrorData :=
    match options.bind (fun o => o.internal) with
    | some oi => { oi with context := some (mergeContext bound oi.context) }
    | none => { context := some bound }
  factories.notFound resource id (some { options.getD {} with internal := some mergedInternal })

end ErrorFactory

/-- One issue of a Zod validation error, as the pipeline consumes it:
the issue `path`, the issue `message`, and all of its other enumerable
properties (`code`, `expected`, ... as key/value pairs). -/
structure ZodIssue where
  path : List String
  message : String
  other : Obj
deriving DecidableEq

/-- `parseZodErrors` from `process-error-handler.ts`: one `ValidationError`
per issue; `field` is the path joined by "." or "root" for an empty path;
every issue property other than `path`/`message` is copied into `meta`. -/
def parseZodErrors (issues : List ZodIssue) : List ValidationError :=
  issues.map (fun issue =>
    { field := if issue.path.length > 0 then String.intercalate "." issue.path else "root"
      message := issue.message
      meta := some issue.other })

/-- A thrown `CustomError` as the pipeline sees it (`error-helpers.ts`). -/
structure CustomErrorShape where
  message : String
  errorType : String
  statusCode : Option Nat := none
  context : Option Obj := none
  skipSentry : Option Bool := none
deriving DecidableEq

/-- `CustomError.getStatusCode`: explicit status, else the built-in default
for the error type (which is undefined for an unregistered type string). -/
def CustomErrorShape.getStatusCode (e : CustomErrorShape) : Option Nat :=
  e.statusCode.orElse (fun _ => DEFAULT_HTTP_STATUS_MAP e.errorType)

/-- The classification of a value caught by the request error pipeline
(`errorPipe` in `process-error-handler.ts`): a Zod validation error, a
`CustomError`, an error exposing a numeric `statusCode`, or anything else. -/
inductive PipeError where
  | zod : List ZodIssue → String → PipeError
  | custom : CustomErrorShape → PipeError
  | withStatus : Nat → String → PipeError
  | unknown : String → PipeError
deriving DecidableEq

/-- The `message` property of the caught value. -/
def PipeError.message : PipeError → String
  | .zod _ m => m
  | .custom c => c.message
  | .withStatus _ m => m
  | .unknown m => m

/-- Result of the classification step of `errorPipe` (the assignments to its
`statusCode`, `errorType`, `context`, `skipSentry`, `validationErrors`
locals). `status` is an `Option` because `CustomError.getStatusCode` can be
undefined for an unregistered error type string. -/
structure Classified where
  status : Option Nat
  errorType : String
  context : Obj
  skipSentry : Bool
  validationErrors : Option (List ValidationError)
deriving DecidableEq

/-- The classification step of `errorPipe`, in the source's priority order. -/
def classify : PipeError → Classified
  | .zod issues _ =>
    { status := some 422
      errorType := "validation"
      context := []
      skipSentry := true
      validationErrors := some (parseZodErrors issues) }
  | .custom c =>
    { status := c.getStatusCode
      errorType := c.errorType
      context := c.context.getD []
      skipSentry := c.skipSentry.getD false
      validationErrors := none }
  | .withStatus n _ =>
    { status := some n
      errorType := if 500 ≤ n then "internal" else "bad-input"
      context := []
      skipSentry := false
      validationErrors := none }
  | .unknown _ =>
    { status := some 500
      errorType := "internal"
      context := []
      skipSentry := false
      validationErrors := none }

/-- The record `errorPipe` builds via `createErrorData` after classification:
validation errors get a fixed public block, the original error becomes the
internal cause, and the classified context is merged with the sanitized
request context (request keys winning, as in the source spread order). -/
def buildErrorData (e : PipeError) (requestContext : Obj) : ErrorData :=
  let c := classify e
  createErrorData c.errorType e.message (some
    { public :=
        match c.validationErrors with
        | some ve => some
            { title := some "Validation Error"
              detail := some "Request validation failed"
              validationErrors := some ve }
        | none => none
      internal := some
        { cause := some { name := "Error", message := e.message }
          context := some (c.context ++ requestContext)
          tags := none }
      httpStatus := c.status
      skipSentry := some c.skipSentry })

/-- Outcome of calling an external collaborator that may throw. -/
structure TelemetryEnv where
  loggerThrows : Bool
  sentryBackendThrows : Bool
  sentryInitialized : Bool
deriving DecidableEq

/-- A JavaScript `try { body } catch { ... }` whose catch block only warns:
any exception of the body is swallowed. -/
def jsTry (body : Except Unit Unit) : Except Unit Unit :=
  match body with
  | Except.ok u => Except.ok u
  | Except.error _ => Except.ok ()

/-- `sendToSentry` from `integrations/sentry/plugin.ts` as the pipeline calls
it: a no-op when Sentry is uninitialized, and otherwise its whole body runs
inside `try/catch`, so a throwing backend never propagates. -/
def sendToSentryCall (env : TelemetryEnv) : Except Unit Unit :=
  if env.sentryInitialized then
    jsTry (if env.sentryBackendThrows then Except.error () else Except.ok ())
  else Except.ok ()

/-- The logging backend call (`requestLogger.error(...)`), invoked by
`errorPipe` with no exception guard: a throwing logger propagates. -/
def loggerCall (env : TelemetryEnv) : Except Unit Unit :=
  if env.loggerThrows then Except.error () else Except.ok ()

/-- Steps 3-6 of `errorPipe` from `process-error-handler.ts` with the effect
outcomes of the telemetry collaborators made explicit: build the record, log
5xx errors (unguarded), conditionally report (internally guarded), then emit
the status/body pair.  `Except.error` means an exception escaped the pipeline
before the response was sent. -/
def errorPipeRun (cfg : ErrorConfigState) (env : TelemetryEnv) (e : PipeError)
    (requestContext : Obj) (shouldIncludeDetails : Bool) :
    Except Unit (Nat × ErrorResponse) :=
  let c := classify e
  let errorData := buildErrorData e requestContext
  let isServerError := 500 ≤ (c.status.getD 0)
  let step4 : Except Unit Unit :=
    if isServerError then loggerCall env else Except.ok ()
  match step4 with
  | Except.error u => Except.error u
  | Except.ok _ =>
    let step5 : Except Unit Unit :=
      if shouldSendToSentry cfg errorData && !c.skipSentry then sendToSentryCall env
      else Except.ok ()
    match step5 with
    | Except.error u => Except.error u
    | Except.ok _ => Except.ok (toHttpResponse cfg errorData shouldIncludeDetails)

/-- Modelled from the spec: the spec's `createErrorData` contract
("message must be non-empty — fails with `InvalidArgument` otherwise"),
which the source `createErrorData` implements without any such check.
Kept only to state the divergence. -/
def specCreateErrorData (type : String) (message : String)
    (options : Option CreateErrorDataOptions) : Except String ErrorData :=
  if message = "" then Except.error "InvalidArgument"
  else Except.ok (createErrorData type message options)

/-! Helper lemmas. -/

/-- If the right operand of an object spread binds a key, the spread binds it
to the same value (later spread wins). -/
theorem jget_append_of_some {b : Obj} {k : String} {w : JVal} (a : Obj)
    (h : jget b k = some w) : jget (a ++ b) k = some w := by
  induction a with
  | nil => simpa using h
  | cons hd tl ih =>
    cases hd with
    | mk k1 v1 =>
      show (match jget (tl ++ b) k with
            | some w => some w
            | none => if k1 = k then some v1 else none) = some w
      rw [ih]

/-- If the right operand of an object spread does not bind a key, lookup in
the spread falls through to the left operand. -/
theorem jget_append_of_none {b : Obj} {k : String} (a : Obj)
    (h : jget b k = none) : jget (a ++ b) k = jget a k := by
  induction a with
  | nil => simpa using h
  | cons hd tl ih =>
    cases hd with
    | mk k1 v1 =>
      show (match jget (tl ++ b) k with
            | some w => some w
            | none => if k1 = k then some v1 else none) =
        (match jget tl k with
          | some w => some w
          | none => if k1 = k then some v1 else none)
      rw [ih]

set_option maxHeartbeats 1000000 in
/-- Every built-in default status is nonzero, so the JS fallback
`DEFAULT_HTTP_STATUS_MAP[t] || 500` returns the mapped value when present. -/
theorem default_status_ne_zero {t : String} {d : Nat}
    (h : DEFAULT_HTTP_STATUS_MAP t = some d) : d ≠ 0 := by
  unfold DEFAULT_HTTP_STATUS_MAP at h
  split_ifs at h
  all_goals (injection h with h2; omega)

/-- A string with a nonempty left part stays nonempty under append. -/
theorem string_append_ne_empty {s : String} (t : String) (h : s.length ≠ 0) :
    s ++ t ≠ "" := by
  intro hc
  have hl := congrArg String.length hc
  rw [String.length_append] at hl
  simp at hl
  omega

/-- The internal context of a record produced by the bound-context factory is
the factory's own keys, then the bound context, then the per-call overlay
(later bindings win under `jget`). -/
theorem errorFactory_notFound_context (bound : Obj) (resource : String)
    (id : Option JVal) (options : Option CreateErrorDataOptions) :
    ((ErrorFactory.notFound bound resource id options).internal.bind
      (fun i => i.context)).getD [] =
      ([("resource", JVal.str resource)] ++
        (match id with
          | some v => [("resource_id", v)]
          | none => []) ++
        (bound ++
          (((options.bind (fun o => o.internal)).bind (fun i => i.context)).getD []))) := by
  cases options with
  | none =>
    simp [ErrorFactory.notFound, factories.notFound, createErrorData,
      ErrorFactory.mergeContext]
  | some o =>
    cases ho : o.internal with
    | none =>
      simp [ErrorFactory.notFound, factories.notFound, createErrorData,
        ErrorFactory.mergeContext, ho]
    | some oi =>
      cases hc : oi.context with
      | none =>
        simp [ErrorFactory.notFound, factories.notFound, createErrorData,
          ErrorFactory.mergeContext, ho, hc]
      | some c =>
        simp [ErrorFactory.notFound, factories.notFound, createErrorData,
          ErrorFactory.mergeContext, ho, hc]

/-! Settled claims. -/

/-- Claim C1: the public projection is confidential.  `toErrorResponse`, and
`toHttpResponse` with `includeErrorDetails` off, are computed only from the
record's type, public data and resolved status: two records that agree on
`type`, `public` and `httpStatus` but differ arbitrarily in `message` and
`internal` (cause, context, tags) produce identical responses. -/
theorem c1_public_projection_confidentiality
    (cfg : ErrorConfigState) (baseUrl : Option String) (e1 e2 : ErrorData)
    (htype : e1.type = e2.type) (hpub : e1.public = e2.public)
    (hstatus : e1.httpStatus = e2.httpStatus) :
    toErrorResponse cfg e1 baseUrl = toErrorResponse cfg e2 baseUrl ∧
    toHttpResponse cfg e1 false = toHttpResponse cfg e2 false := by
  have hs : getHttpStatus cfg e1 = getHttpStatus cfg e2 := by
    unfold getHttpStatus
    rw [htype, hstatus]
  constructor
  · unfold toErrorResponse
    rw [htype, hpub, hs]
  · unfold toHttpResponse toErrorResponse
    rw [htype, hpub, hs]
    simp

/-- Claim C1 witness: a record carrying a secret internal context, cause and
tags and a record with no internal data at all project to the same response. -/
theorem c1_witness :
    toErrorResponse ErrorConfig.initial
      { type := "not-found", message := "query for user 42 failed on db-prod-7"
        public := some { title := some "Not Found" }
        internal := some
          { cause := some { name := "Error", message := "ECONNREFUSED 10.0.0.7" }
            context := some [("password", JVal.str "hunter2")]
            tags := some [("region", "eu-1")] } } none =
    toErrorResponse ErrorConfig.initial
      { type := "not-found", message := "other"
        public := some { title := some "Not Found" } } none ∧
    toHttpResponse ErrorConfig.initial
      { type := "not-found", message := "query for user 42 failed on db-prod-7"
        public := some { title := some "Not Found" }
        internal := some
          { cause := some { name := "Error", message := "ECONNREFUSED 10.0.0.7" }
            context := some [("password", JVal.str "hunter2")]
            tags := some [("region", "eu-1")] } } false =
    toHttpResponse ErrorConfig.initial
      { type := "not-found", message := "other"
        public := some { title := some "Not Found" } } false :=
  c1_public_projection_confidentiality ErrorConfig.initial none _ _ rfl rfl rfl

/-- Claim C2: status resolution precedence.  The record's own `httpStatus`
always wins regardless of registry state; otherwise the per-category custom
status map, then the registered ad-hoc category status, then the built-in
default, and 500 when the category is neither built-in nor registered. -/
theorem c2_status_resolution_precedence (cfg : ErrorConfigState) (e : ErrorData) :
    (∀ s, e.httpStatus = some s → getHttpStatus cfg e = s) ∧
    (e.httpStatus = none →
      ∀ x, mapGet cfg.customStatusMap e.type = some x → getHttpStatus cfg e = x) ∧
    (e.httpStatus = none → mapGet cfg.customStatusMap e.type = none →
      ∀ y, mapGet cfg.customErrorTypes e.type = some y → getHttpStatus cfg e = y) ∧
    (e.httpStatus = none → mapGet cfg.customStatusMap e.type = none →
      mapGet cfg.customErrorTypes e.type = none →
      ∀ d, DEFAULT_HTTP_STATUS_MAP e.type = some d → getHttpStatus cfg e = d) ∧
    (e.httpStatus = none → mapGet cfg.customStatusMap e.type = none →
      mapGet cfg.customErrorTypes e.type = none →
      DEFAULT_HTTP_STATUS_MAP e.type = none → getHttpStatus cfg e = 500) := by
  refine ⟨?_, ?_, ?_, ?_, ?_⟩
  · intro s hs
    unfold getHttpStatus
    rw [hs]
  · intro h0 x hx
    unfold getHttpStatus ErrorConfig.getHttpStatus
    rw [h0, hx]
  · intro h0 h1 y hy
    unfold getHttpStatus ErrorConfig.getHttpStatus
    rw [h0, h1, hy]
  · intro h0 h1 h2 d hd
    unfold getHttpStatus ErrorConfig.getHttpStatus jsOrNat
    rw [h0, h1, h2, hd]
    simp [default_status_ne_zero hd]
  · intro h0 h1 h2 h3
    unfold getHttpStatus ErrorConfig.getHttpStatus jsOrNat
    rw [h0, h1, h2, h3]

/-- Claim C2 witness: each precedence level exercised at a concrete registry
state — explicit override 201 beats everything, the custom map beats the 404
default, a registered ad-hoc category resolves, a built-in default resolves,
and an unknown category bottoms out at 500. -/
theorem c2_witness :
    getHttpStatus
      { sentryStatusRules := [], customStatusMap := [("busy", 550)],
        customErrorTypes := [] }
      { type := "busy", message := "m", httpStatus := some 201 } = 201 ∧
    getHttpStatus
      { sentryStatusRules := [], customStatusMap := [("not-found", 410)],
        customErrorTypes := [] }
      { type := "not-found", message := "m" } = 410 ∧
    getHttpStatus
      { sentryStatusRules := [], customStatusMap := [],
        customErrorTypes := [("teapot", 418)] }
      { type := "teapot", message := "m" } = 418 ∧
    getHttpStatus ErrorConfig.initial { type := "conflict", message := "m" } = 409 ∧
    getHttpStatus ErrorConfig.initial { type := "mystery", message := "m" } = 500 :=
  ⟨(c2_status_resolution_precedence
      { sentryStatusRules := [], customStatusMap := [("busy", 550)],
        customErrorTypes := [] }
      { type := "busy", message := "m", httpStatus := some 201 }).1 201 rfl,
   (c2_status_resolution_precedence
      { sentryStatusRules := [], customStatusMap := [("not-found", 410)],
        customErrorTypes := [] }
      { type := "not-found", message := "m" }).2.1 rfl 410 rfl,
   (c2_status_resolution_precedence
      { sentryStatusRules := [], customStatusMap := [],
        customErrorTypes := [("teapot", 418)] }
      { type := "teapot", message := "m" }).2.2.1 rfl rfl 418 rfl,
   (c2_status_resolution_precedence ErrorConfig.initial
      { type := "conflict", message := "m" }).2.2.2.1 rfl rfl rfl 409 rfl,
   (c2_status_resolution_precedence ErrorConfig.initial
      { type := "mystery", message := "m" }).2.2.2.2 rfl rfl rfl rfl⟩

/-- Claim C3: reporting eligibility.  `skipSentry` forces false; otherwise the
record is eligible iff some configured rule matches its resolved status, with
exact rules matching on equality, range rules on the inclusive range, and
range-with-exclusion rules on the range minus the excluded codes; under the
single rule range [500,599] excluding [503], exactly the 5xx statuses other
than 503 are eligible. -/
theorem c3_reporting_eligibility (cfg : ErrorConfigState) (e : ErrorData) :
    (e.skipSentry = some true → shouldSendToSentry cfg e = false) ∧
    (e.skipSentry.getD false = false →
      (shouldSendToSentry cfg e = true ↔
        ∃ r ∈ cfg.sentryStatusRules, r.matches (getHttpStatus cfg e) = true)) ∧
    (∀ n s, (StatusCodeRule.exact n).matches s = true ↔ s = n) ∧
    (∀ a b s, (StatusCodeRule.range a b).matches s = true ↔ a ≤ s ∧ s ≤ b) ∧
    (∀ a b ex s, (StatusCodeRule.rangeExclude a b ex).matches s = true ↔
      (a ≤ s ∧ s ≤ b ∧ s ∉ ex.getD [])) ∧
    (∀ s, ErrorConfig.shouldSendToSentry
        { sentryStatusRules := [StatusCodeRule.rangeExclude 500 599 (some [503])]
          customStatusMap := [], customErrorTypes := [] } s = true ↔
      (500 ≤ s ∧ s ≤ 599 ∧ s ≠ 503)) := by
  refine ⟨?_, ?_, ?_, ?_, ?_, ?_⟩
  · intro h
    unfold shouldSendToSentry
    rw [h]
    rfl
  · intro h
    unfold shouldSendToSentry ErrorConfig.shouldSendToSentry
    rw [h]
    simp [List.any_eq_true]
  · intro n s
    simp [StatusCodeRule.matches]
  · intro a b s
    simp [StatusCodeRule.matches]
  · intro a b ex s
    cases ex <;> simp [StatusCodeRule.matches, and_assoc]
  · intro s
    simp only [ErrorConfig.shouldSendToSentry, StatusCodeRule.matches, List.any_cons,
      List.any_nil, Bool.or_false, Bool.and_eq_true, Bool.not_eq_true,
      decide_eq_true_eq, Option.getD_some, Option.map_some, List.contains_cons,
      List.contains_nil, Bool.or_false, decide_eq_false_iff_not]
    constructor
    · rintro ⟨⟨h1, h2⟩, h3⟩
      refine ⟨h1, h2, ?_⟩
      intro hc
      rw [hc] at h3
      simp at h3
    · rintro ⟨h1, h2, h3⟩
      refine ⟨⟨h1, h2⟩, ?_⟩
      simp [h3]

/-- Claim C3 witness: a skip-flagged record is never reported; under the rule
range [500,599] excluding [503], resolved statuses 500 and 599 are eligible
and 503 is not. -/
theorem c3_witness :
    shouldSendToSentry
      { sentryStatusRules := [StatusCodeRule.rangeExclude 500 599 (some [503])]
        customStatusMap := [], customErrorTypes := [] }
      { type := "internal", message := "m", skipSentry := some true } = false ∧
    (ErrorConfig.shouldSendToSentry
      { sentryStatusRules := [StatusCodeRule.rangeExclude 500 599 (some [503])]
        customStatusMap := [], customErrorTypes := [] } 500 = true ↔
      (500 ≤ 500 ∧ 500 ≤ 599 ∧ 500 ≠ 503)) ∧
    (ErrorConfig.shouldSendToSentry
      { sentryStatusRules := [StatusCodeRule.rangeExclude 500 599 (some [503])]
        customStatusMap := [], customErrorTypes := [] } 599 = true ↔
      (500 ≤ 599 ∧ 599 ≤ 599 ∧ 599 ≠ 503)) ∧
    (ErrorConfig.shouldSendToSentry
      { sentryStatusRules := [StatusCodeRule.rangeExclude 500 599 (some [503])]
        customStatusMap := [], customErrorTypes := [] } 503 = true ↔
      (500 ≤ 503 ∧ 503 ≤ 599 ∧ 503 ≠ 503)) :=
  ⟨(c3_reporting_eligibility _
      { type := "internal", message := "m", skipSentry := some true }).1 rfl,
   (c3_reporting_eligibility ErrorConfig.initial
      { type := "internal", message := "m" }).2.2.2.2.2 500,
   (c3_reporting_eligibility ErrorConfig.initial
      { type := "internal", message := "m" }).2.2.2.2.2 599,
   (c3_reporting_eligibility ErrorConfig.initial
      { type := "internal", message := "m" }).2.2.2.2.2 503⟩

/-- Claim C8 counterexample: the claim says `createErrorData` fails with an
InvalidArgument-style error on the empty message.  The source constructor
performs no such check: on the empty message it succeeds and returns the
record built from its arguments, diverging from the spec-modelled contract. -/
theorem c8_counterexample :
    (specCreateErrorData "internal" "" none).isOk = false ∧
    createErrorData "internal" "" none =
      { type := "internal", message := "", public := none, internal := none,
        httpStatus := none, skipSentry := none } :=
  ⟨rfl, rfl⟩

/-- Claim C8 amended: `createErrorData` performs no validation at all — for
every message, including the empty string, it succeeds and returns the record
assembled field-by-field from its arguments. -/
theorem c8_amended_no_validation (type message : String)
    (options : Option CreateErrorDataOptions) :
    (createErrorData type message options).type = type ∧
    (createErrorData type message options).message = message ∧
    (createErrorData type message options).public = options.bind (fun o => o.public) ∧
    (createErrorData type message options).internal = options.bind (fun o => o.internal) ∧
    (createErrorData type message options).httpStatus = options.bind (fun o => o.httpStatus) ∧
    (createErrorData type message options).skipSentry = options.bind (fun o => o.skipSentry) :=
  ⟨rfl, rfl, rfl, rfl, rfl, rfl⟩

/-- Claim C6: response projection shape.  `type` is the base-url-prefixed
override when a (truthy) public type and a (truthy) base URL are given, the
URN-prefixed override when only the public type is given, and the category
URN otherwise — always a nonempty string; `title` defaults to "Error" when
absent; `errors` appears exactly when `validationErrors` is nonempty and
`meta` exactly when nonempty. -/
theorem c6_response_projection_shape (cfg : ErrorConfigState) (e : ErrorData)
    (baseUrl : Option String) :
    (∀ t b, e.public.bind (fun p => p.type) = some t → t ≠ "" →
      baseUrl = some b → b ≠ "" →
      (toErrorResponse cfg e baseUrl).type = b ++ "/" ++ t) ∧
    (∀ t, e.public.bind (fun p => p.type) = some t → t ≠ "" →
      baseUrl = none ∨ baseUrl = some "" →
      (toErrorResponse cfg e baseUrl).type = "urn:problem:" ++ t) ∧
    (strTruthy (e.public.bind (fun p => p.type)) = false →
      (toErrorResponse cfg e baseUrl).type = "urn:problem:" ++ e.type) ∧
    (toErrorResponse cfg e baseUrl).type ≠ "" ∧
    (e.public.bind (fun p => p.title) = none →
      (toErrorResponse cfg e baseUrl).title = "Error") ∧
    ((e.public.bind (fun p => p.validationErrors)).getD [] = [] →
      (toErrorResponse cfg e baseUrl).errors = none) ∧
    (∀ l, e.public.bind (fun p => p.validationErrors) = some l → l ≠ [] →
      (toErrorResponse cfg e baseUrl).errors = some l) ∧
    ((e.public.bind (fun p => p.meta)).getD [] = [] →
      (toErrorResponse cfg e baseUrl).meta = none) ∧
    (∀ m, e.public.bind (fun p => p.meta) = some m → m ≠ [] →
      (toErrorResponse cfg e baseUrl).meta = some m) := by
  refine ⟨?_, ?_, ?_, ?_, ?_, ?_, ?_, ?_, ?_⟩
  · intro t b hpt ht hb hbne
    simp [toErrorResponse, hpt, hb, strTruthy, ht, hbne]
  · intro t hpt ht hb
    rcases hb with hb | hb <;> simp [toErrorResponse, hpt, hb, strTruthy, ht]
  · intro h
    simp [toErrorResponse, h]
  · simp only [toErrorResponse]
    split
    · split
      · apply string_append_ne_empty
        rw [String.length_append]
        have h1 : ("/" : String).length = 1 := rfl
        omega
      · exact string_append_ne_empty _ (by decide)
    · exact string_append_ne_empty _ (by decide)
  · intro h
    simp [toErrorResponse, h]
  · intro h
    cases hv : e.public.bind (fun p => p.validationErrors) with
    | none => simp [toErrorResponse, hv]
    | some l =>
      rw [hv] at h
      simp at h
      simp [toErrorResponse, hv, h]
  · intro l hv hl
    simp [toErrorResponse, hv, List.length_pos, hl]
  · intro h
    cases hm : e.public.bind (fun p => p.meta) with
    | none => simp [toErrorResponse, hm]
    | some m =>
      rw [hm] at h
      simp at h
      simp [toErrorResponse, hm, h]
  · intro m hm hne
    simp [toErrorResponse, hm, List.length_pos, hne]

/-- Claim C6 witness: the three type forms, the default title, and the
inclusion conditions for `errors` and `meta`, at concrete records. -/
theorem c6_witness :
    (toErrorResponse ErrorConfig.initial
      { type := "not-found", message := "m"
        public := some { type := some "user-not-found" } }
      (some "https://api.example.com/errors")).type
      = "https://api.example.com/errors" ++ "/" ++ "user-not-found" ∧
    (toErrorResponse ErrorConfig.initial
      { type := "not-found", message := "m"
        public := some { type := some "user-not-found" } } none).type
      = "urn:problem:" ++ "user-not-found" ∧
    (toErrorResponse ErrorConfig.initial
      { type := "not-found", message := "m" } none).type
      = "urn:problem:" ++ "not-found" ∧
    (toErrorResponse ErrorConfig.initial
      { type := "not-found", message := "m" } none).title = "Error" ∧
    (toErrorResponse ErrorConfig.initial
      { type := "validation", message := "m"
        public := some { validationErrors := some [] } } none).errors = none ∧
    (toErrorResponse ErrorConfig.initial
      { type := "validation", message := "m"
        public := some
          { validationErrors := some [{ field := "email", message := "bad" }] } }
      none).errors
      = some [{ field := "email", message := "bad" }] ∧
    (toErrorResponse ErrorConfig.initial
      { type := "internal", message := "m"
        public := some { meta := some [] } } none).meta = none ∧
    (toErrorResponse ErrorConfig.initial
      { type := "internal", message := "m"
        public := some { meta := some [("hint", JVal.str "retry")] } } none).meta
      = some [("hint", JVal.str "retry")] :=
  ⟨(c6_response_projection_shape ErrorConfig.initial
      { type := "not-found", message := "m"
        public := some { type := some "user-not-found" } }
      (some "https://api.example.com/errors")).1 "user-not-found"
      "https://api.example.com/errors" rfl (by decide) rfl (by decide),
   (c6_response_projection_shape ErrorConfig.initial
      { type := "not-found", message := "m"
        public := some { type := some "user-not-found" } } none).2.1
      "user-not-found" rfl (by decide) (Or.inl rfl),
   (c6_response_projection_shape ErrorConfig.initial
      { type := "not-found", message := "m" } none).2.2.1 rfl,
   (c6_response_projection_shape ErrorConfig.initial
      { type := "not-found", message := "m" } none).2.2.2.2.1 rfl,
   (c6_response_projection_shape ErrorConfig.initial
      { type := "validation", message := "m"
        public := some { validationErrors := some [] } } none).2.2.2.2.2.1 rfl,
   (c6_response_projection_shape ErrorConfig.initial
      { type := "validation", message := "m"
        public := some
          { validationErrors := some [{ field := "email", message := "bad" }] } }
      none).2.2.2.2.2.2.1
      [{ field := "email", message := "bad" }] rfl (by simp),
   (c6_response_projection_shape ErrorConfig.initial
      { type := "internal", message := "m"
        public := some { meta := some [] } } none).2.2.2.2.2.2.2.1 rfl,
   (c6_response_projection_shape ErrorConfig.initial
      { type := "internal", message := "m"
        public := some { meta := some [("hint", JVal.str "retry")] } }
      none).2.2.2.2.2.2.2.2 [("hint", JVal.str "retry")] rfl (by simp)⟩

/-- Claim C9: bound-context merge.  Every key supplied by the per-call
`options.internal.context` reaches the produced record's internal context with
the per-call value; every key of the bound context not overridden per-call
reaches it with the bound value; and the factory bound to requestId "r1"
producing notFound("user","42") carries requestId, resource and resource_id. -/
theorem c9_bound_context_merge (bound : Obj) (resource : String) (id : Option JVal)
    (options : Option CreateErrorDataOptions) :
    (∀ k w,
      jget (((options.bind (fun o => o.internal)).bind (fun i => i.context)).getD []) k
        = some w →
      jget (((ErrorFactory.notFound bound resource id options).internal.bind
        (fun i => i.context)).getD []) k = some w) ∧
    (∀ k v, jget bound k = some v →
      jget (((options.bind (fun o => o.internal)).bind (fun i => i.context)).getD []) k
        = none →
      jget (((ErrorFactory.notFound bound resource id options).internal.bind
        (fun i => i.context)).getD []) k = some v) ∧
    jget (((ErrorFactory.notFound [("requestId", JVal.str "r1")] "user"
      (some (JVal.str "42")) none).internal.bind (fun i => i.context)).getD [])
      "requestId" = some (JVal.str "r1") ∧
    jget (((ErrorFactory.notFound [("requestId", JVal.str "r1")] "user"
      (some (JVal.str "42")) none).internal.bind (fun i => i.context)).getD [])
      "resource" = some (JVal.str "user") ∧
    jget (((ErrorFactory.notFound [("requestId", JVal.str "r1")] "user"
      (some (JVal.str "42")) none).internal.bind (fun i => i.context)).getD [])
      "resource_id" = some (JVal.str "42") := by
  refine ⟨?_, ?_, by decide, by decide, by decide⟩
  · intro k w h
    rw [errorFactory_notFound_context]
    exact jget_append_of_some _ (jget_append_of_some _ h)
  · intro k v h hn
    rw [errorFactory_notFound_context]
    exact jget_append_of_some _ ((jget_append_of_none bound hn).trans h)

/-- Claim C9 witness: the bound requestId survives when no per-call context is
given, and a per-call requestId wins over the bound one. -/
theorem c9_witness :
    jget (((ErrorFactory.notFound [("requestId", JVal.str "r1")] "user"
      (some (JVal.str "42"))
      (some { internal := some { context := some [("requestId", JVal.str "r2")] } })).internal.bind
      (fun i => i.context)).getD []) "requestId" = some (JVal.str "r2") ∧
    jget (((ErrorFactory.notFound [("requestId", JVal.str "r1")] "user"
      (some (JVal.str "42"))
      (some { internal := some { context := some [("other", JVal.str "x")] } })).internal.bind
      (fun i => i.context)).getD []) "requestId" = some (JVal.str "r1") :=
  ⟨(c9_bound_context_merge [("requestId", JVal.str "r1")] "user"
      (some (JVal.str "42"))
      (some { internal := some { context := some [("requestId", JVal.str "r2")] } })).1 "requestId"
      (JVal.str "r2") (by decide),
   (c9_bound_context_merge [("requestId", JVal.str "r1")] "user"
      (some (JVal.str "42"))
      (some { internal := some { context := some [("other", JVal.str "x")] } })).2.1 "requestId"
      (JVal.str "r1") (by decide) (by decide)⟩

/-- Claim C4: Zod classification.  A schema-validation error is classified as
category `validation` with status 422 (both as the record's explicit override
and as the resolved status under any registry state) and reporting disabled,
and yields one `ValidationError` per issue: `field` is the path joined by "."
(or "root" for an empty path), `message` is the issue message, and `meta`
collects every other issue property. -/
theorem c4_zod_validation_classification (issues : List ZodIssue) (msg : String)
    (requestContext : Obj) (cfg : ErrorConfigState) :
    (buildErrorData (PipeError.zod issues msg) requestContext).type = "validation" ∧
    (buildErrorData (PipeError.zod issues msg) requestContext).httpStatus = some 422 ∧
    getHttpStatus cfg (buildErrorData (PipeError.zod issues msg) requestContext) = 422 ∧
    (buildErrorData (PipeError.zod issues msg) requestContext).skipSentry = some true ∧
    shouldSendToSentry cfg (buildErrorData (PipeError.zod issues msg) requestContext)
      = false ∧
    ((buildErrorData (PipeError.zod issues msg) requestContext).public.bind
      (fun p => p.validationErrors)) = some (parseZodErrors issues) ∧
    parseZodErrors issues = issues.map (fun issue =>
      { field := if issue.path.isEmpty then "root"
                 else String.intercalate "." issue.path
        message := issue.message
        meta := some issue.other }) ∧
    parseZodErrors
      [ { path := ["email"], message := "Invalid email", other := [] },
        { path := [], message := "bad root", other := [] } ] =
      [ { field := "email", message := "Invalid email", meta := some [] },
        { field := "root", message := "bad root", meta := some [] } ] := by
  refine ⟨rfl, rfl, rfl, rfl, rfl, rfl, ?_, rfl⟩
  unfold parseZodErrors
  congr 1
  funext issue
  cases hp : issue.path with
  | nil => simp [hp]
  | cons a l => simp [hp]

/-- Claim C5 counterexample: a throwing logging backend is not caught by the
pipeline.  With a logger that throws, a server-classified error (status 500)
aborts the pipeline before step 6 — no status/body is produced — contradicting
the claim that logging failures never prevent the response. -/
theorem c5_counterexample :
    errorPipeRun ErrorConfig.initial
      { loggerThrows := true, sentryBackendThrows := false, sentryInitialized := false }
      (PipeError.unknown "boom") [] false = Except.error () := rfl

/-- Claim C5 amended: the reporting call can never abort the pipeline —
`sendToSentry` wraps its whole body in try/catch, so it returns normally even
when the Sentry backend throws — and whenever the logging call does not throw
the pipeline always completes step 6, emitting the computed status and body.
The logging call itself, however, is invoked without any exception guard. -/
theorem c5_amended_telemetry_guard (cfg : ErrorConfigState) (env : TelemetryEnv)
    (e : PipeError) (requestContext : Obj) (d : Bool)
    (hlog : env.loggerThrows = false) :
    sendToSentryCall env = Except.ok () ∧
    errorPipeRun cfg env e requestContext d =
      Except.ok (toHttpResponse cfg (buildErrorData e requestContext) d) := by
  have hsend : sendToSentryCall env = Except.ok () := by
    unfold sendToSentryCall jsTry
    split
    · split <;> rfl
    · rfl
  refine ⟨hsend, ?_⟩
  unfold errorPipeRun loggerCall
  simp only [hlog, Bool.false_eq_true, if_false, ite_self, hsend]

/-- Claim C5 amended witness: with a non-throwing logger and a throwing,
initialized Sentry backend, the reporting failure is swallowed and the
pipeline still emits the response. -/
theorem c5_amended_witness :
    sendToSentryCall
      { loggerThrows := false, sentryBackendThrows := true, sentryInitialized := true }
      = Except.ok () ∧
    errorPipeRun ErrorConfig.initial
      { loggerThrows := false, sentryBackendThrows := true, sentryInitialized := true }
      (PipeError.unknown "boom") [] false =
      Except.ok (toHttpResponse ErrorConfig.initial
        (buildErrorData (PipeError.unknown "boom") []) false) :=
  c5_amended_telemetry_guard ErrorConfig.initial
    { loggerThrows := false, sentryBackendThrows := true, sentryInitialized := true }
    (PipeError.unknown "boom") [] false rfl

/-- Claim C7: configuration overrides are undone by reset.  For a category
with a built-in default, a custom status map entry makes records of that
category (without explicit override) resolve to the custom status, `reset`
makes them resolve to the built-in default again, and `reset` clears both
custom maps and restores the single default Sentry rule range [500, 599]. -/
theorem c7_reset_restores_defaults (st : ErrorConfigState) (C : String) (D X : Nat)
    (e : ErrorData) (hD : DEFAULT_HTTP_STATUS_MAP C = some D)
    (htype : e.type = C) (hover : e.httpStatus = none) :
    getHttpStatus (ErrorConfig.setCustomStatusMap st [(C, X)]) e = X ∧
    getHttpStatus (ErrorConfig.reset st) e = D ∧
    (ErrorConfig.reset st).customStatusMap = [] ∧
    (ErrorConfig.reset st).customErrorTypes = [] ∧
    (ErrorConfig.reset st).sentryStatusRules = [StatusCodeRule.range 500 599] := by
  refine ⟨?_, ?_, rfl, rfl, rfl⟩
  · unfold getHttpStatus ErrorConfig.getHttpStatus ErrorConfig.setCustomStatusMap
    rw [hover, htype]
    show (match mapGet (mapSet st.customStatusMap C X) C with
          | some customStatus => customStatus
          | none =>
            match mapGet st.customErrorTypes C with
            | some customTypeStatus => customTypeStatus
            | none => jsOrNat (DEFAULT_HTTP_STATUS_MAP C) 500) = X
    unfold mapSet mapGet
    simp
  · unfold getHttpStatus ErrorConfig.getHttpStatus ErrorConfig.reset jsOrNat
    rw [hover, htype, hD]
    simp [mapGet, default_status_ne_zero hD]

/-- Claim C7 witness: at category "not-found" (built-in default 404), a custom
map entry 410 takes effect and `reset` restores 404 and the default rule. -/
theorem c7_witness :
    getHttpStatus
      (ErrorConfig.setCustomStatusMap ErrorConfig.initial [("not-found", 410)])
      { type := "not-found", message := "m" } = 410 ∧
    getHttpStatus (ErrorConfig.reset ErrorConfig.initial)
      { type := "not-found", message := "m" } = 404 ∧
    (ErrorConfig.reset ErrorConfig.initial).customStatusMap = [] ∧
    (ErrorConfig.reset ErrorConfig.initial).customErrorTypes = [] ∧
    (ErrorConfig.reset ErrorConfig.initial).sentryStatusRules
      = [StatusCodeRule.range 500 599] :=
  c7_reset_restores_defaults ErrorConfig.initial "not-found" 404 410
    { type := "not-found", message := "m" } rfl rfl rfl

/-- Claim C10: frame property of the record-transforming helpers.
`withHttpStatus` changes only `httpStatus`, `withoutSentry` changes only
`skipSentry`, and `withContext` changes only `internal.context` — to the
key-wise merge with the extra keys winning — while preserving the internal
cause and tags. -/
theorem c10_frame_properties (e : ErrorData) (s : Nat) (extra : Obj) :
    (withHttpStatus e s).type = e.type ∧
    (withHttpStatus e s).message = e.message ∧
    (withHttpStatus e s).public = e.public ∧
    (withHttpStatus e s).internal = e.internal ∧
    (withHttpStatus e s).skipSentry = e.skipSentry ∧
    (withHttpStatus e s).httpStatus = some s ∧
    (withoutSentry e).type = e.type ∧
    (withoutSentry e).message = e.message ∧
    (withoutSentry e).public = e.public ∧
    (withoutSentry e).internal = e.internal ∧
    (withoutSentry e).httpStatus = e.httpStatus ∧
    (withoutSentry e).skipSentry = some true ∧
    (withContext e extra).type = e.type ∧
    (withContext e extra).message = e.message ∧
    (withContext e extra).public = e.public ∧
    (withContext e extra).httpStatus = e.httpStatus ∧
    (withContext e extra).skipSentry = e.skipSentry ∧
    ((withContext e extra).internal.bind (fun i => i.cause)) =
      e.internal.bind (fun i => i.cause) ∧
    ((withContext e extra).internal.bind (fun i => i.tags)) =
      e.internal.bind (fun i => i.tags) ∧
    (∀ k, jget (((withContext e extra).internal.bind (fun i => i.context)).getD []) k =
      match jget extra k with
      | some w => some w
      | none => jget ((e.internal.bind (fun i => i.context)).getD []) k) := by
  refine ⟨rfl, rfl, rfl, rfl, rfl, rfl, rfl, rfl, rfl, rfl, rfl, rfl, rfl, rfl, rfl,
    rfl, rfl, rfl, rfl, ?_⟩
  intro k
  show jget (((e.internal.bind (fun i => i.context)).getD []) ++ extra) k = _
  cases h : jget extra k with
  | some w => rw [jget_append_of_some _ h]
  | none => rw [jget_append_of_none _ h]

end LogBundle
